import Mathlib

/-!
Shallow embedding of the LibreOffice spreadsheet environment of this
repository (`src/envs/libreoffice_env`): the action-dispatch and episode
state machine of `server/libreoffice_environment.py` together with the
data model of `models.py`.

The external LibreOffice engine (driven through UNO capability calls) is
modelled by an in-memory document together with a `World` record carrying
the outcomes of the capability calls whose results the code merely
trusts: file stores and loads, directory writability, and the existence
check performed after a PDF export.  Where handler code outside a
`try` block would raise (for example an attribute access on a `None`
document), the model returns the failure observation that the enclosing
`except` of `_execute_command` would produce; such branches are noted
in comments.
-/

/-- A Python value as it occurs in an action's `parameters` dictionary.
Numbers are modelled by `Int` and `Rat`. -/
inductive PyVal where
  | none
  | str (s : String)
  | int (n : Int)
  | float (q : Rat)
  | list (xs : List PyVal)
  | dict (xs : List (String × PyVal))

mutual

/-- Python `repr`, used for elements when a container is turned into text.
Approximations: rationals print in Lean's `Rat` form, and a Python dict
(which Python renders with curly braces) is rendered here as `dict(...)`
since the exact text of such messages is not load-bearing. -/
def pyRepr : PyVal → String
  | PyVal.none => "None"
  | PyVal.str s => "'" ++ s ++ "'"
  | PyVal.int n => toString n
  | PyVal.float q => toString q
  | PyVal.list xs => "[" ++ String.intercalate ", " (pyReprList xs) ++ "]"
  | PyVal.dict xs => "dict(" ++ String.intercalate ", " (pyReprPairs xs) ++ ")"

def pyReprList : List PyVal → List String
  | [] => []
  | v :: vs => pyRepr v :: pyReprList vs

def pyReprPairs : List (String × PyVal) → List String
  | [] => []
  | (k, v) :: vs => ("'" ++ k ++ "': " ++ pyRepr v) :: pyReprPairs vs

end

/-- Python `str(v)`: like `repr` except that strings print without
quotes.  In particular `str(None) = "None"`. -/
def pyStr : PyVal → String
  | PyVal.str s => s
  | v => pyRepr v

/-- Python truthiness, as used by the `if not x` parameter checks. -/
def pyTruthy : PyVal → Bool
  | PyVal.none => false
  | PyVal.str s => s != ""
  | PyVal.int n => n != 0
  | PyVal.float q => q != 0
  | PyVal.list xs => !xs.isEmpty
  | PyVal.dict xs => !xs.isEmpty

/-- `isinstance(v, (int, float))`, the test `_set_cell`/`_set_range` use
to pick the numeric setter. -/
def pyIsNumber : PyVal → Bool
  | PyVal.int _ => true
  | PyVal.float _ => true
  | _ => false

/-- `float(v)` on a value already known to be a number. -/
def pyToFloat : PyVal → Rat
  | PyVal.int n => (n : Rat)
  | PyVal.float q => q
  | _ => 0

/-- Python `s.strip()`: leading and trailing whitespace removed,
implemented structurally on the character list. -/
def pyStrip (s : String) : String :=
  String.mk (((s.toList.dropWhile Char.isWhitespace).reverse.dropWhile
    Char.isWhitespace).reverse)

/-- A `parameters` dictionary: insertion-ordered string-keyed mapping. -/
def Params : Type := List (String × PyVal)

/-- `params.get(k)`: the stored value, or `None` when the key is absent. -/
def getParam (p : Params) (k : String) : PyVal :=
  (List.lookup k (show List (String × PyVal) from p)).getD PyVal.none

/-- `params.get(k, d)` keeps the stored value (even an explicit `None`)
and falls back to `d` only when the key is absent. -/
def getParamD (p : Params) (k : String) (d : PyVal) : PyVal :=
  (List.lookup k (show List (String × PyVal) from p)).getD d

/-- One spreadsheet cell of the engine model: its textual representation
(`getString`), numeric representation (`getValue`), formula
(`getFormula`) and the property bag touched by `format_cell`. -/
structure Cell where
  text : String := ""
  value : Rat := 0
  formula : String := ""
  props : List (String × PyVal) := []

/-- A sheet: a name plus finitely many populated cells, keyed by
zero-based (column, row) position; unlisted cells are empty. -/
structure Sheet where
  name : String
  cells : List ((Nat × Nat) × Cell) := []

/-- The engine-side document: an ordered collection of sheets. -/
structure Document where
  sheets : List Sheet

def Document.sheetNames (d : Document) : List String :=
  d.sheets.map Sheet.name

def Document.hasSheet (d : Document) (n : String) : Bool :=
  d.sheets.any (fun s => s.name == n)

def Sheet.readCell (s : Sheet) (p : Nat × Nat) : Cell :=
  (List.lookup p s.cells).getD {}

def Sheet.writeCell (s : Sheet) (p : Nat × Nat) (f : Cell → Cell) : Sheet :=
  if (List.lookup p s.cells).isSome then
    { s with cells := s.cells.map (fun pc => if pc.1 == p then (pc.1, f pc.2) else pc) }
  else
    { s with cells := s.cells ++ [(p, f {})] }

def Document.readCell (d : Document) (n : String) (p : Nat × Nat) : Cell :=
  (((d.sheets.find? (fun s => s.name == n)).getD { name := n }).readCell p)

def Document.updateSheet (d : Document) (n : String) (f : Sheet → Sheet) : Document :=
  { sheets := d.sheets.map (fun s => if s.name == n then f s else s) }

/-- The engine's text-set capability, `cell.setString(v)`. -/
def Document.setCellString (d : Document) (n : String) (p : Nat × Nat) (v : String) : Document :=
  d.updateSheet n (fun s => s.writeCell p (fun c => { c with text := v }))

/-- The engine's numeric-set capability, `cell.setValue(v)`. -/
def Document.setCellValue (d : Document) (n : String) (p : Nat × Nat) (v : Rat) : Document :=
  d.updateSheet n (fun s => s.writeCell p (fun c => { c with value := v }))

/-- `cell.setFormula(v)`. -/
def Document.setCellFormula (d : Document) (n : String) (p : Nat × Nat) (v : String) : Document :=
  d.updateSheet n (fun s => s.writeCell p (fun c => { c with formula := v }))

/-- `cell_range.setPropertyValue(k, v)`. -/
def Document.setCellProp (d : Document) (n : String) (p : Nat × Nat) (k : String) (v : PyVal) : Document :=
  d.updateSheet n (fun s => s.writeCell p (fun c => { c with props := (k, v) :: c.props }))

/-- Column letters of an A1-style reference, to a one-based index. -/
def colIndex (cs : List Char) : Nat :=
  cs.foldl (fun a c => a * 26 + (c.toUpper.toNat - 64)) 0

/-- Digit characters to the number they spell. -/
def rowIndex (cs : List Char) : Nat :=
  cs.foldl (fun a c => a * 10 + (c.toNat - 48)) 0

/-- The engine's parsing of a cell reference such as `"B3"` into a
zero-based (column, row) position; `Option.none` models the engine
raising on a malformed reference. -/
def parseCellRef (s : String) : Option (Nat × Nat) :=
  let cs := s.toList
  let letters := cs.takeWhile Char.isAlpha
  let rest := cs.dropWhile Char.isAlpha
  if letters.isEmpty || rest.isEmpty || !rest.all Char.isDigit then Option.none
  else some (colIndex letters - 1, rowIndex rest - 1)

/-- A range reference `"A1:C3"` (or a single cell) to its corner
positions. -/
def parseRangeRef (s : String) : Option ((Nat × Nat) × (Nat × Nat)) :=
  match s.splitOn ":" with
  | [a] => (parseCellRef a).map (fun p => (p, p))
  | [a, b] =>
    match parseCellRef a, parseCellRef b with
    | some p, some q => some (p, q)
    | _, _ => Option.none
  | _ => Option.none

/-- `metadata` attached by `step`: current step count, the command, and
the episode identifier. -/
structure StepMeta where
  step : Nat
  command : String
  episodeId : String
deriving DecidableEq

/-- The payload carried in an observation's `data` field. -/
inductive ObsData where
  | str (s : String)
  | num (q : Rat)
  | grid (g : List (List PyVal))
  | dict (d : List (String × PyVal))

/-- `LibreOfficeObservation` of `models.py`, together with the base
`Observation` fields (`done`, `reward`, `metadata`) that
`LibreOfficeEnvironment.step` writes. -/
structure LibreOfficeObservation where
  result : String
  success : Bool
  data : Option ObsData := Option.none
  currentSheet : Option String := Option.none
  sheetNames : Option (List String) := Option.none
  errorMessage : Option String := Option.none
  filePath : Option String := Option.none
  done : Bool := false
  reward : Option Rat := Option.none
  metadata : Option StepMeta := Option.none

/-- `LibreOfficeAction` of `models.py`; `__post_init__` guarantees the
parameter dictionary is present, so it is total here. -/
structure LibreOfficeAction where
  command : String
  parameters : Params := (show Params from [])

/-- Failure observation as every handler builds it: a result string, a
success flag of false and an error message. -/
def mkFail (r m : String) : LibreOfficeObservation :=
  { result := r, success := false, errorMessage := some m }

/-- The mutable state of a `LibreOfficeEnvironment` instance: episode
identity and counters, the document handle, the current-sheet
reference (by name), the remembered file path, the ready flag set by a
successful connection, and the configured base/goal paths. -/
structure LibreOfficeEnvironment where
  episodeId : String
  stepCount : Nat
  resetCount : Nat := 0
  document : Option Document := Option.none
  currentSheet : Option String := Option.none
  filePath : Option String := Option.none
  ready : Bool := false
  baseExcel : Option String := Option.none
  goalExcel : Option String := Option.none

/-- Outcomes of the external capability calls an episode step or
lifecycle call may make; the code trusts these results. -/
structure World where
  docCloseError : Option String := Option.none
  openOutcome : Except String (Option Document) := Except.ok Option.none
  saveError : Option String := Option.none
  dirWritable : Bool := true
  pdfStoreError : Option String := Option.none
  pdfExistsAfter : Bool := true
  csvStoreError : Option String := Option.none
  connOk : Bool := true
  freshDoc : Document := { sheets := [{ name := "Sheet1" }] }
  newEpisodeId : String := "episode"
  baseExists : Bool := false

/-- Message of the `AttributeError` a `None` receiver raises. -/
def noneAttrMsg (attr : String) : String :=
  "'NoneType' object has no attribute '" ++ attr ++ "'"

/-- Message of the `TypeError` raised when a string was expected. -/
def typeMsg : String := "expected a string value"

/-- Engine message for a malformed cell or range reference. -/
def badRefMsg (r : String) : String := "Invalid cell reference: " ++ r

/-- Engine message for a missing sheet name. -/
def noSuchMsg (n : String) : String := "NoSuchElementException: " ++ n

/-- Engine message for inserting or renaming to an existing sheet name. -/
def dupMsg (n : String) : String := "sheet name already used: " ++ n

/-- Engine message for an out-of-range index access. -/
def idxMsg : String := "IndexOutOfBoundsException"

/-- Engine message for removing the only remaining sheet. -/
def lastSheetMsg : String := "cannot remove all sheets"

/-- Python message for iterating a non-iterable. -/
def iterMsg : String := "object is not iterable"

/-- Python message of `int(s, 16)` on a malformed literal. -/
def hexErrMsg (c : String) : String :=
  "invalid literal for int() with base 16: '" ++ c ++ "'"

/-- One hexadecimal digit. -/
def hexDigit (c : Char) : Option Nat :=
  if 48 ≤ c.toNat ∧ c.toNat ≤ 57 then some (c.toNat - 48)
  else if 97 ≤ c.toNat ∧ c.toNat ≤ 102 then some (c.toNat - 87)
  else if 65 ≤ c.toNat ∧ c.toNat ≤ 70 then some (c.toNat - 55)
  else Option.none

/-- `int(s, 16)` on the text after the `#`. -/
def hexNat (s : String) : Option Nat :=
  if s.isEmpty then Option.none
  else
    s.toList.foldl
      (fun a c =>
        match a, hexDigit c with
        | some n, some d => some (n * 16 + d)
        | _, _ => Option.none)
      (some 0)

/-- `os.path.dirname`. -/
def dirname (p : String) : String :=
  String.intercalate "/" (p.splitOn "/").dropLast

/-- `values` must be a list of lists to be iterated by `_set_range`. -/
def asGrid : PyVal → Except String (List (List PyVal))
  | PyVal.list rows =>
    rows.mapM (fun r =>
      match r with
      | PyVal.list cs => Except.ok cs
      | _ => Except.error iterMsg)
  | _ => Except.error iterMsg

/-- The cell-writing loop of `_set_range`: numbers through `setValue`,
everything else stringified through `setString`. -/
def writeGrid (d : Document) (sn : String) (sc sr : Nat)
    (rows : List (List PyVal)) : Document :=
  rows.enum.foldl
    (fun acc ir =>
      ir.2.enum.foldl
        (fun acc2 jc =>
          if pyIsNumber jc.2 then
            acc2.setCellValue sn (sc + jc.1, sr + ir.1) (pyToFloat jc.2)
          else
            acc2.setCellString sn (sc + jc.1, sr + ir.1) (pyStr jc.2))
        acc)
    d

/-- `getDataArray` over the rectangle of a range: text cells as strings,
other cells as their numeric value. -/
def readGrid (d : Document) (sn : String)
    (c : (Nat × Nat) × (Nat × Nat)) : List (List PyVal) :=
  (List.range (c.2.2 + 1 - c.1.2)).map (fun i =>
    (List.range (c.2.1 + 1 - c.1.1)).map (fun j =>
      if (d.readCell sn (c.1.1 + j, c.1.2 + i)).text != "" then
        PyVal.str (d.readCell sn (c.1.1 + j, c.1.2 + i)).text
      else PyVal.float (d.readCell sn (c.1.1 + j, c.1.2 + i)).value))

/-- The auto-generated sheet name of `_add_sheet`:
`f"Sheet{count + 1}"` over the current sheet count. -/
def autoSheetName (doc : Document) : String :=
  "Sheet" ++ toString (doc.sheets.length + 1)

namespace LibreOfficeEnvironment

/-- `_get_sheet`: a supplied name that exists wins; a missing or
unusable name falls back silently to the current sheet (the handler's
`except` swallows the lookup failure); no name returns the current
sheet.  Sheets are referenced by name. -/
def get_sheet (env : LibreOfficeEnvironment) (doc : Document) (v : PyVal) :
    Option String :=
  match v with
  | PyVal.none => env.currentSheet
  | PyVal.str n => if doc.hasSheet n then some n else env.currentSheet
  | _ => env.currentSheet

/-- `_create_sheet`: reports the current sheet; it has no `try` of its
own, so a missing current sheet raises into `_execute_command`. -/
def create_sheet (env : LibreOfficeEnvironment) :
    LibreOfficeObservation × LibreOfficeEnvironment :=
  match env.currentSheet with
  | Option.none =>
    (mkFail ("Error executing command: " ++ noneAttrMsg "getName")
      (noneAttrMsg "getName"), env)
  | some cs =>
    ({ result := "New spreadsheet created", success := true,
       currentSheet := some cs, sheetNames := some [cs] }, env)

/-- `_open_file`. -/
def open_file (w : World) (env : LibreOfficeEnvironment) (p : Params) :
    LibreOfficeObservation × LibreOfficeEnvironment :=
  if !pyTruthy (getParam p "file_path") then
    (mkFail "No file path provided" "file_path parameter is required", env)
  else
    match getParam p "file_path" with
    | PyVal.str path =>
      match env.document, w.docCloseError with
      | some _, some e => (mkFail ("Error opening file: " ++ e) e, env)
      | _, _ =>
        match w.openOutcome with
        | Except.error e =>
          (mkFail ("Error opening file: " ++ e) e,
           { env with document := Option.none })
        | Except.ok Option.none =>
          (mkFail "Failed to open file" "Could not open the specified file",
           { env with document := Option.none })
        | Except.ok (some d) =>
          match d.sheets.head? with
          | Option.none =>
            (mkFail ("Error opening file: " ++ idxMsg) idxMsg,
             { env with document := some d })
          | some s0 =>
            ({ result := "File opened successfully: " ++ path, success := true,
               currentSheet := some s0.name, sheetNames := some d.sheetNames,
               filePath := some path },
             { env with
                 document := some d
                 currentSheet := some s0.name
                 filePath := some path })
    | _ => (mkFail ("Error opening file: " ++ typeMsg) typeMsg, env)

/-- `_save_file`: `storeAsURL` on the current document; a `None`
document raises an `AttributeError` that the handler converts into a
failure observation. -/
def save_file (w : World) (env : LibreOfficeEnvironment) (p : Params) :
    LibreOfficeObservation × LibreOfficeEnvironment :=
  if !pyTruthy (getParam p "file_path") then
    (mkFail "No file path provided" "file_path parameter is required", env)
  else
    match getParam p "file_path" with
    | PyVal.str path =>
      match env.document with
      | Option.none =>
        (mkFail ("Error saving file: " ++ noneAttrMsg "storeAsURL")
          (noneAttrMsg "storeAsURL"), env)
      | some _ =>
        match w.saveError with
        | some e => (mkFail ("Error saving file: " ++ e) e, env)
        | Option.none =>
          ({ result := "File saved successfully: " ++ path, success := true,
             filePath := some path }, { env with filePath := some path })
    | _ => (mkFail ("Error saving file: " ++ typeMsg) typeMsg, env)

/-- `_set_cell`. -/
def set_cell (env : LibreOfficeEnvironment) (p : Params) :
    LibreOfficeObservation × LibreOfficeEnvironment :=
  if !pyTruthy (getParam p "cell") then
    (mkFail "No cell specified" "cell parameter is required", env)
  else
    match env.document with
    | Option.none =>
      (mkFail ("Error setting cell: " ++ noneAttrMsg "getSheets")
        (noneAttrMsg "getSheets"), env)
    | some doc =>
      match get_sheet env doc (getParam p "sheet") with
      | Option.none =>
        (mkFail ("Error setting cell: " ++ noneAttrMsg "getCellRangeByName")
          (noneAttrMsg "getCellRangeByName"), env)
      | some sn =>
        match getParam p "cell" with
        | PyVal.str cn =>
          match parseCellRef cn with
          | Option.none =>
            (mkFail ("Error setting cell: " ++ badRefMsg cn) (badRefMsg cn), env)
          | some pos =>
            if pyIsNumber (getParam p "value") then
              ({ result := "Cell " ++ cn ++ " set to " ++ pyStr (getParam p "value"),
                 success := true, currentSheet := some sn },
               { env with
                 document := some (doc.setCellValue sn pos (pyToFloat (getParam p "value"))) })
            else
              ({ result := "Cell " ++ cn ++ " set to " ++ pyStr (getParam p "value"),
                 success := true, currentSheet := some sn },
               { env with
                 document := some (doc.setCellString sn pos (pyStr (getParam p "value"))) })
        | _ => (mkFail ("Error setting cell: " ++ typeMsg) typeMsg, env)

/-- `_get_cell`: non-blank (after strip) text wins, otherwise the
numeric value is returned. -/
def get_cell (env : LibreOfficeEnvironment) (p : Params) :
    LibreOfficeObservation × LibreOfficeEnvironment :=
  if !pyTruthy (getParam p "cell") then
    (mkFail "No cell specified" "cell parameter is required", env)
  else
    match env.document with
    | Option.none =>
      (mkFail ("Error getting cell: " ++ noneAttrMsg "getSheets")
        (noneAttrMsg "getSheets"), env)
    | some doc =>
      match get_sheet env doc (getParam p "sheet") with
      | Option.none =>
        (mkFail ("Error getting cell: " ++ noneAttrMsg "getCellRangeByName")
          (noneAttrMsg "getCellRangeByName"), env)
      | some sn =>
        match getParam p "cell" with
        | PyVal.str cn =>
          match parseCellRef cn with
          | Option.none =>
            (mkFail ("Error getting cell: " ++ badRefMsg cn) (badRefMsg cn), env)
          | some pos =>
            ({ result := "Retrieved value from cell " ++ cn, success := true,
               data := some
                 (if pyStrip (doc.readCell sn pos).text != "" then
                   ObsData.str (doc.readCell sn pos).text
                 else ObsData.num (doc.readCell sn pos).value),
               currentSheet := some sn }, env)
        | _ => (mkFail ("Error getting cell: " ++ typeMsg) typeMsg, env)

/-- `_set_range`. -/
def set_range (env : LibreOfficeEnvironment) (p : Params) :
    LibreOfficeObservation × LibreOfficeEnvironment :=
  if !pyTruthy (getParam p "range") || !pyTruthy (getParam p "values") then
    (mkFail "Range and values required" "range and values parameters are required", env)
  else
    match env.document with
    | Option.none =>
      (mkFail ("Error setting range: " ++ noneAttrMsg "getSheets")
        (noneAttrMsg "getSheets"), env)
    | some doc =>
      match get_sheet env doc (getParam p "sheet") with
      | Option.none =>
        (mkFail ("Error setting range: " ++ noneAttrMsg "getCellRangeByName")
          (noneAttrMsg "getCellRangeByName"), env)
      | some sn =>
        match getParam p "range" with
        | PyVal.str rn =>
          match parseRangeRef rn with
          | Option.none =>
            (mkFail ("Error setting range: " ++ badRefMsg rn) (badRefMsg rn), env)
          | some corners =>
            match asGrid (getParam p "values") with
            | Except.error e =>
              (mkFail ("Error setting range: " ++ e) e, env)
            | Except.ok rows =>
              ({ result := "Range " ++ rn ++ " set successfully.", success := true,
                 currentSheet := some sn },
               { env with
                 document := some (writeGrid doc sn corners.1.1 corners.1.2 rows) })
        | _ => (mkFail ("Error setting range: " ++ typeMsg) typeMsg, env)

/-- `_get_range`. -/
def get_range (env : LibreOfficeEnvironment) (p : Params) :
    LibreOfficeObservation × LibreOfficeEnvironment :=
  if !pyTruthy (getParam p "range") then
    (mkFail "No range specified" "range parameter is required", env)
  else
    match env.document with
    | Option.none =>
      (mkFail ("Error getting range: " ++ noneAttrMsg "getSheets")
        (noneAttrMsg "getSheets"), env)
    | some doc =>
      match get_sheet env doc (getParam p "sheet") with
      | Option.none =>
        (mkFail ("Error getting range: " ++ noneAttrMsg "getCellRangeByName")
          (noneAttrMsg "getCellRangeByName"), env)
      | some sn =>
        match getParam p "range" with
        | PyVal.str rn =>
          match parseRangeRef rn with
          | Option.none =>
            (mkFail ("Error getting range: " ++ badRefMsg rn) (badRefMsg rn), env)
          | some corners =>
            ({ result := "Retrieved data from range " ++ rn, success := true,
               data := some (ObsData.grid (readGrid doc sn corners)),
               currentSheet := some sn }, env)
        | _ => (mkFail ("Error getting range: " ++ typeMsg) typeMsg, env)

/-- `_set_formula`. -/
def set_formula (env : LibreOfficeEnvironment) (p : Params) :
    LibreOfficeObservation × LibreOfficeEnvironment :=
  if !pyTruthy (getParam p "cell") || !pyTruthy (getParam p "formula") then
    (mkFail "Cell and formula required" "cell and formula parameters are required", env)
  else
    match env.document with
    | Option.none =>
      (mkFail ("Error setting formula: " ++ noneAttrMsg "getSheets")
        (noneAttrMsg "getSheets"), env)
    | some doc =>
      match get_sheet env doc (getParam p "sheet") with
      | Option.none =>
        (mkFail ("Error setting formula: " ++ noneAttrMsg "getCellRangeByName")
          (noneAttrMsg "getCellRangeByName"), env)
      | some sn =>
        match getParam p "cell" with
        | PyVal.str cn =>
          match parseCellRef cn with
          | Option.none =>
            (mkFail ("Error setting formula: " ++ badRefMsg cn) (badRefMsg cn), env)
          | some pos =>
            match getParam p "formula" with
            | PyVal.str f =>
              ({ result := "Formula set in cell " ++ cn ++ ": " ++ f,
                 success := true, currentSheet := some sn },
               { env with document := some (doc.setCellFormula sn pos f) })
            | _ => (mkFail ("Error setting formula: " ++ typeMsg) typeMsg, env)
        | _ => (mkFail ("Error setting formula: " ++ typeMsg) typeMsg, env)

/-- `_get_formula`. -/
def get_formula (env : LibreOfficeEnvironment) (p : Params) :
    LibreOfficeObservation × LibreOfficeEnvironment :=
  if !pyTruthy (getParam p "cell") then
    (mkFail "No cell specified" "cell parameter is required", env)
  else
    match env.document with
    | Option.none =>
      (mkFail ("Error getting formula: " ++ noneAttrMsg "getSheets")
        (noneAttrMsg "getSheets"), env)
    | some doc =>
      match get_sheet env doc (getParam p "sheet") with
      | Option.none =>
        (mkFail ("Error getting formula: " ++ noneAttrMsg "getCellRangeByName")
          (noneAttrMsg "getCellRangeByName"), env)
      | some sn =>
        match getParam p "cell" with
        | PyVal.str cn =>
          match parseCellRef cn with
          | Option.none =>
            (mkFail ("Error getting formula: " ++ badRefMsg cn) (badRefMsg cn), env)
          | some pos =>
            ({ result := "Retrieved formula from cell " ++ cn, success := true,
               data := some (ObsData.str (doc.readCell sn pos).formula),
               currentSheet := some sn }, env)
        | _ => (mkFail ("Error getting formula: " ++ typeMsg) typeMsg, env)

/-- `_add_sheet`: the default name `f"Sheet{count + 1}"` is computed
eagerly (touching the document even when a name is supplied; a `None`
document then raises outside the `try` into `_execute_command`), the
sheet is inserted at the end, and the observation reports the new name
as `current_sheet` while `self._current_sheet` is left untouched. -/
def add_sheet (env : LibreOfficeEnvironment) (p : Params) :
    LibreOfficeObservation × LibreOfficeEnvironment :=
  match env.document with
  | Option.none =>
    (mkFail ("Error executing command: " ++ noneAttrMsg "getSheets")
      (noneAttrMsg "getSheets"), env)
  | some doc =>
    match getParamD p "name" (PyVal.str (autoSheetName doc)) with
    | PyVal.str n =>
      if doc.hasSheet n then
        (mkFail ("Error adding sheet: " ++ dupMsg n) (dupMsg n), env)
      else
        ({ result := "Sheet '" ++ n ++ "' added successfully", success := true,
           currentSheet := some n, sheetNames := some (doc.sheetNames ++ [n]) },
         { env with document := some { sheets := doc.sheets ++ [{ name := n }] } })
    | _ => (mkFail ("Error adding sheet: " ++ typeMsg) typeMsg, env)

/-- `_delete_sheet`. -/
def delete_sheet (env : LibreOfficeEnvironment) (p : Params) :
    LibreOfficeObservation × LibreOfficeEnvironment :=
  if !pyTruthy (getParam p "name") then
    (mkFail "No sheet name specified" "name parameter is required", env)
  else
    match env.document with
    | Option.none =>
      (mkFail ("Error deleting sheet: " ++ noneAttrMsg "getSheets")
        (noneAttrMsg "getSheets"), env)
    | some doc =>
      match getParam p "name" with
      | PyVal.str n =>
        if !doc.hasSheet n then
          (mkFail ("Error deleting sheet: " ++ noSuchMsg n) (noSuchMsg n), env)
        else if doc.sheets.length ≤ 1 then
          -- the engine refuses to remove the only remaining sheet
          (mkFail ("Error deleting sheet: " ++ lastSheetMsg) lastSheetMsg, env)
        else
          match env.currentSheet with
          | Option.none =>
            -- the removal already happened when `current.getName()` raises
            (mkFail ("Error deleting sheet: " ++ noneAttrMsg "getName")
              (noneAttrMsg "getName"),
             { env with document := some { sheets := doc.sheets.filter (fun s => s.name != n) } })
          | some cs =>
            if cs = n then
              match (doc.sheets.filter (fun s => s.name != n)).head? with
              | Option.none =>
                (mkFail ("Error deleting sheet: " ++ idxMsg) idxMsg,
                 { env with document := some { sheets := doc.sheets.filter (fun s => s.name != n) } })
              | some s0 =>
                ({ result := "Sheet '" ++ n ++ "' deleted successfully", success := true,
                   currentSheet := some s0.name,
                   sheetNames := some (Document.sheetNames { sheets := doc.sheets.filter (fun s => s.name != n) }) },
                 { env with
                   document := some { sheets := doc.sheets.filter (fun s => s.name != n) }
                   currentSheet := some s0.name })
            else
              ({ result := "Sheet '" ++ n ++ "' deleted successfully", success := true,
                 currentSheet := some cs,
                 sheetNames := some (Document.sheetNames { sheets := doc.sheets.filter (fun s => s.name != n) }) },
               { env with document := some { sheets := doc.sheets.filter (fun s => s.name != n) } })
      | _ => (mkFail ("Error deleting sheet: " ++ typeMsg) typeMsg, env)

/-- One sheet renamed. -/
def renameIn (doc : Document) (o n : String) : Document :=
  { sheets := doc.sheets.map (fun s => if s.name == o then { s with name := n } else s) }

/-- `_rename_sheet`: the observation always reports `new_name` as the
current sheet; the stored current-sheet reference follows the renamed
object. -/
def rename_sheet (env : LibreOfficeEnvironment) (p : Params) :
    LibreOfficeObservation × LibreOfficeEnvironment :=
  if !pyTruthy (getParam p "old_name") || !pyTruthy (getParam p "new_name") then
    (mkFail "Old and new names required" "old_name and new_name parameters are required", env)
  else
    match env.document with
    | Option.none =>
      (mkFail ("Error renaming sheet: " ++ noneAttrMsg "getSheets")
        (noneAttrMsg "getSheets"), env)
    | some doc =>
      match getParam p "old_name", getParam p "new_name" with
      | PyVal.str o, PyVal.str n =>
        if !doc.hasSheet o then
          (mkFail ("Error renaming sheet: " ++ noSuchMsg o) (noSuchMsg o), env)
        else if doc.hasSheet n && n != o then
          (mkFail ("Error renaming sheet: " ++ dupMsg n) (dupMsg n), env)
        else
          ({ result := "Sheet renamed from '" ++ o ++ "' to '" ++ n ++ "'",
             success := true, currentSheet := some n,
             sheetNames := some (renameIn doc o n).sheetNames },
           { env with
             document := some (renameIn doc o n)
             currentSheet := if env.currentSheet = some o then some n else env.currentSheet })
      | _, _ => (mkFail ("Error renaming sheet: " ++ typeMsg) typeMsg, env)

/-- Success observation of `_format_cell`. -/
def formatOkObs (cn sn : String) : LibreOfficeObservation :=
  { result := "Cell " ++ cn ++ " formatted successfully", success := true,
    currentSheet := some sn }

/-- `_format_cell`: bold and italic are applied first; a color string
starting with `#` is parsed as hexadecimal, and a malformed literal
raises after the earlier property writes already happened. -/
def format_cell (env : LibreOfficeEnvironment) (p : Params) :
    LibreOfficeObservation × LibreOfficeEnvironment :=
  if !pyTruthy (getParam p "cell") then
    (mkFail "No cell specified" "cell parameter is required", env)
  else
    match env.document with
    | Option.none =>
      (mkFail ("Error formatting cell: " ++ noneAttrMsg "getSheets")
        (noneAttrMsg "getSheets"), env)
    | some doc =>
      match get_sheet env doc (getParam p "sheet") with
      | Option.none =>
        (mkFail ("Error formatting cell: " ++ noneAttrMsg "getCellRangeByName")
          (noneAttrMsg "getCellRangeByName"), env)
      | some sn =>
        match getParam p "cell" with
        | PyVal.str cn =>
          match parseCellRef cn with
          | Option.none =>
            (mkFail ("Error formatting cell: " ++ badRefMsg cn) (badRefMsg cn), env)
          | some pos =>
            match getParamD p "format_options" (PyVal.dict []) with
            | PyVal.dict opts =>
              let d1 :=
                match List.lookup "bold" opts with
                | some b => doc.setCellProp sn pos "CharWeight"
                    (PyVal.int (if pyTruthy b then 150 else 100))
                | Option.none => doc
              let d2 :=
                match List.lookup "italic" opts with
                | some b => d1.setCellProp sn pos "CharPosture"
                    (PyVal.int (if pyTruthy b then 1 else 0))
                | Option.none => d1
              match List.lookup "color" opts with
              | Option.none => (formatOkObs cn sn, { env with document := some d2 })
              | some (PyVal.str c) =>
                if c.startsWith "#" then
                  match hexNat (c.drop 1) with
                  | some nv =>
                    (formatOkObs cn sn,
                     { env with
                       document := some (d2.setCellProp sn pos "CharColor" (PyVal.int nv)) })
                  | Option.none =>
                    -- bold/italic writes already applied before the raise
                    (mkFail ("Error formatting cell: " ++ hexErrMsg (c.drop 1))
                      (hexErrMsg (c.drop 1)), { env with document := some d2 })
                else
                  (formatOkObs cn sn,
                   { env with
                     document := some (d2.setCellProp sn pos "CharColor" (PyVal.str c)) })
              | some v =>
                (formatOkObs cn sn,
                 { env with document := some (d2.setCellProp sn pos "CharColor" v) })
            | _ =>
              (mkFail ("Error formatting cell: " ++ iterMsg) iterMsg, env)
        | _ => (mkFail ("Error formatting cell: " ++ typeMsg) typeMsg, env)

/-- `_export_pdf`: the export is verified by an existence check, and on
that check failing the observation carries `success := false` with no
`error_message`. -/
def export_pdf (w : World) (env : LibreOfficeEnvironment) (p : Params) :
    LibreOfficeObservation × LibreOfficeEnvironment :=
  if !pyTruthy (getParam p "file_path") then
    (mkFail "No file path provided" "file_path parameter is required", env)
  else
    match getParam p "file_path" with
    | PyVal.str path =>
      if !w.dirWritable then
        (mkFail ("Directory not writable: " ++ dirname path)
          "Target directory is not writable", env)
      else
        match env.document with
        | Option.none =>
          (mkFail ("Error exporting PDF: " ++ noneAttrMsg "storeToURL")
            (noneAttrMsg "storeToURL"), env)
        | some _ =>
          match w.pdfStoreError with
          | some e => (mkFail ("Error exporting PDF: " ++ e) e, env)
          | Option.none =>
            if w.pdfExistsAfter then
              ({ result := "PDF export completed", success := true,
                 data := some (ObsData.dict [("exported_file", PyVal.str path)]) }, env)
            else
              ({ result := "Export command issued but file not found", success := false,
                 data := some (ObsData.dict [("exported_file", PyVal.str path)]) }, env)
    | _ => (mkFail ("Error exporting PDF: " ++ typeMsg) typeMsg, env)

/-- `_export_csv`. -/
def export_csv (w : World) (env : LibreOfficeEnvironment) (p : Params) :
    LibreOfficeObservation × LibreOfficeEnvironment :=
  if !pyTruthy (getParam p "file_path") then
    (mkFail "No file path provided" "file_path parameter is required", env)
  else
    match getParam p "file_path" with
    | PyVal.str path =>
      match env.document with
      | Option.none =>
        (mkFail ("Error exporting CSV: " ++ noneAttrMsg "storeToURL")
          (noneAttrMsg "storeToURL"), env)
      | some _ =>
        match w.csvStoreError with
        | some e => (mkFail ("Error exporting CSV: " ++ e) e, env)
        | Option.none =>
          ({ result := "CSV exported successfully: " ++ path, success := true,
             data := some (ObsData.dict [("exported_file", PyVal.str path)]) }, env)
    | _ => (mkFail ("Error exporting CSV: " ++ typeMsg) typeMsg, env)

/-- The fifteen command strings `_execute_command` dispatches. -/
def dispatchedCommands : List String :=
  ["create_sheet", "open_file", "save_file", "set_cell", "get_cell",
   "set_range", "get_range", "set_formula", "get_formula", "add_sheet",
   "delete_sheet", "rename_sheet", "format_cell", "export_pdf", "export_csv"]

/-- The observation returned when a command arrives before a successful
connection. -/
def notReadyObs : LibreOfficeObservation :=
  { result := "LibreOffice not initialized", success := false,
    errorMessage := some "LibreOffice connection failed" }

/-- The observation returned for a command outside the dispatch chain. -/
def unknownObs (c : String) : LibreOfficeObservation :=
  { result := "Unknown command: " ++ c, success := false,
    errorMessage := some ("Command '" ++ c ++ "' not supported") }

/-- `_execute_command`: the not-ready guard, then the dispatch chain,
then the unknown-command failure. -/
def execute_command (w : World) (env : LibreOfficeEnvironment)
    (a : LibreOfficeAction) : LibreOfficeObservation × LibreOfficeEnvironment :=
  if !env.ready then (notReadyObs, env)
  else if a.command = "create_sheet" then create_sheet env
  else if a.command = "open_file" then open_file w env a.parameters
  else if a.command = "save_file" then save_file w env a.parameters
  else if a.command = "set_cell" then set_cell env a.parameters
  else if a.command = "get_cell" then get_cell env a.parameters
  else if a.command = "set_range" then set_range env a.parameters
  else if a.command = "get_range" then get_range env a.parameters
  else if a.command = "set_formula" then set_formula env a.parameters
  else if a.command = "get_formula" then get_formula env a.parameters
  else if a.command = "add_sheet" then add_sheet env a.parameters
  else if a.command = "delete_sheet" then delete_sheet env a.parameters
  else if a.command = "rename_sheet" then rename_sheet env a.parameters
  else if a.command = "format_cell" then format_cell env a.parameters
  else if a.command = "export_pdf" then export_pdf w env a.parameters
  else if a.command = "export_csv" then export_csv w env a.parameters
  else (unknownObs a.command, env)

/-- `step`: increments the step counter, dispatches, then
unconditionally overwrites metadata, reward and done. -/
def step (w : World) (env : LibreOfficeEnvironment) (a : LibreOfficeAction) :
    LibreOfficeObservation × LibreOfficeEnvironment :=
  let r := execute_command w { env with stepCount := env.stepCount + 1 } a
  ({ r.1 with
     metadata := some { step := r.2.stepCount, command := a.command, episodeId := r.2.episodeId }
     reward := some (if r.1.success then (1 : Rat) else -(1 / 10))
     done := false }, r.2)

/-- `_cleanup_libreoffice`: closes the document (swallowing a failure,
in which case the handle survives) and drops the temp dir. -/
def cleanup (w : World) (env : LibreOfficeEnvironment) : LibreOfficeEnvironment :=
  match env.document, w.docCloseError with
  | some _, Option.none => { env with document := Option.none }
  | _, _ => env

/-- `reset`: cleanup, fresh episode identity and zeroed counter, then
the connection attempt; on success the first sheet of the fresh
document becomes current and an optional base document is opened
(failure only warned); on connection failure the ready flag keeps its
previous value. -/
def reset (w : World) (env : LibreOfficeEnvironment) :
    LibreOfficeObservation × LibreOfficeEnvironment :=
  let env2 : LibreOfficeEnvironment :=
    { cleanup w env with
      episodeId := w.newEpisodeId
      stepCount := 0
      resetCount := env.resetCount + 1 }
  if w.connOk then
    match w.freshDoc.sheets.head? with
    | Option.none =>
      -- `getByIndex(0)` raised inside the guarded block: init reports
      -- failure with the document already assigned
      ({ result := "Failed to initialize LibreOffice", success := false,
         errorMessage := some "Could not connect to LibreOffice",
         done := false, reward := some 0 },
       { env2 with document := some w.freshDoc })
    | some s0 =>
      let env3 : LibreOfficeEnvironment :=
        { env2 with
          document := some w.freshDoc
          currentSheet := some s0.name
          ready := true }
      let env4 :=
        if env3.baseExcel.isSome && w.baseExists then
          (open_file w env3 (show Params from
            [("file_path", PyVal.str (env3.baseExcel.getD ""))])).2
        else env3
      ({ result := "LibreOffice environment ready!", success := true,
         currentSheet := env4.currentSheet,
         sheetNames := some (match env4.currentSheet with
           | some nm => [nm]
           | Option.none => []),
         done := false, reward := some 0 }, env4)
  else
    ({ result := "Failed to initialize LibreOffice", success := false,
       errorMessage := some "Could not connect to LibreOffice",
       done := false, reward := some 0 }, env2)

/-- Result of `close`, with the observation of the internal goal-save
call kept as a trace for verification. -/
structure CloseResult where
  obs : LibreOfficeObservation
  env : LibreOfficeEnvironment
  goalSave : Option LibreOfficeObservation

/-- `close`: closes the document handle first (failure caught), then
terminates the desktop, then — only after the handle was already
released — attempts the goal-file save through `_save_file`, then
cleans up and drops the ready flag, reporting overall success. -/
def close (w : World) (env : LibreOfficeEnvironment) : CloseResult :=
  let env1 : LibreOfficeEnvironment :=
    match env.document, w.docCloseError with
    | some _, Option.none => { env with document := Option.none }
    | _, _ => env
  let save : Option (LibreOfficeObservation × LibreOfficeEnvironment) :=
    match env1.goalExcel with
    | some pth => some (save_file w env1 (show Params from [("file_path", PyVal.str pth)]))
    | Option.none => Option.none
  let env2 :=
    match save with
    | some r => r.2
    | Option.none => env1
  { obs := { result := "LibreOffice environment closed successfully.", success := true },
    env := { cleanup w env2 with ready := false },
    goalSave := save.map Prod.fst }

end LibreOfficeEnvironment

open LibreOfficeEnvironment

/-! ### Verification-support definitions -/

/-- Error-message discipline of a single observation: no message on
success, a message on failure. -/
def errOk (o : LibreOfficeObservation) : Prop :=
  (o.success = true → o.errorMessage = Option.none) ∧
  (o.success = false → o.errorMessage.isSome = true)

/-- The state part of a handler result, restricted to the episode
fields the step wrapper reads. -/
def stateFrame (r : LibreOfficeObservation × LibreOfficeEnvironment)
    (env : LibreOfficeEnvironment) : Prop :=
  r.2.stepCount = env.stepCount ∧ r.2.episodeId = env.episodeId

/-- `errOk` of the observation part of a handler result. -/
def resultErrOk (r : LibreOfficeObservation × LibreOfficeEnvironment) : Prop :=
  errOk r.1

/-- `errOk`, weakened by the one exception `_export_pdf` exhibits: a
failure without error message when the store raised nothing but the
exported file is absent. -/
def pdfLenient (r : LibreOfficeObservation × LibreOfficeEnvironment)
    (w : World) : Prop :=
  errOk r.1 ∨
    (r.1.success = false ∧ r.1.errorMessage = Option.none ∧
     w.pdfExistsAfter = false)

/-! ### Concrete inputs used by witnesses and counterexamples -/

/-- A live document: A1 holds text `" hi "` (with numeric 7 behind it),
all other cells untouched. -/
def demoDoc : Document :=
  { sheets := [{ name := "Sheet1",
                 cells := [((0, 0), { text := " hi ", value := 7 })] }] }

/-- An environment as it looks after a successful reset. -/
def demoEnv : LibreOfficeEnvironment :=
  { episodeId := "ep-1", stepCount := 3, document := some demoDoc,
    currentSheet := some "Sheet1", ready := true }

/-- A freshly constructed environment, before any reset. -/
def envFresh : LibreOfficeEnvironment := { episodeId := "ep-0", stepCount := 0 }

/-- The state after a reset whose connection attempt failed. -/
def envFailedReset : LibreOfficeEnvironment :=
  (reset { connOk := false } envFresh).2

/-- A document whose sheets are `Sheet1` and `Sheet3` — as left behind
by adding `Sheet2` and `Sheet3` and then deleting `Sheet2`. -/
def gapDoc : Document :=
  { sheets := [{ name := "Sheet1" }, { name := "Sheet3" }] }

/-- A ready environment over `gapDoc`. -/
def gapEnv : LibreOfficeEnvironment :=
  { episodeId := "ep-8", stepCount := 0, document := some gapDoc,
    currentSheet := some "Sheet1", ready := true }

/-- A world where the PDF store call raises nothing but the exported
file is absent afterwards. -/
def wNoPdf : World := { pdfExistsAfter := false }

/-- `demoEnv` with a configured goal path, about to be closed. -/
def envGoal : LibreOfficeEnvironment :=
  { demoEnv with goalExcel := some "/out/final.xlsx" }

/-! ### Handler-level facts -/

theorem errOk_mkFail (r m : String) : errOk (mkFail r m) := by
  simp [errOk, mkFail]

theorem errOk_notReadyObs : errOk notReadyObs := by
  simp [errOk, notReadyObs]

theorem errOk_unknownObs (c : String) : errOk (unknownObs c) := by
  simp [errOk, unknownObs]

theorem frame_create_sheet (env : LibreOfficeEnvironment) :
    stateFrame (create_sheet env) env := by
  unfold create_sheet; repeat' split <;> (try simp [stateFrame])

theorem frame_open_file (w : World) (env : LibreOfficeEnvironment) (p : Params) :
    stateFrame (open_file w env p) env := by
  unfold open_file; repeat' split <;> (try simp [stateFrame])

theorem frame_save_file (w : World) (env : LibreOfficeEnvironment) (p : Params) :
    stateFrame (save_file w env p) env := by
  unfold save_file; repeat' split <;> (try simp [stateFrame])

theorem frame_set_cell (env : LibreOfficeEnvironment) (p : Params) :
    stateFrame (set_cell env p) env := by
  unfold set_cell; repeat' split <;> (try simp [stateFrame])

theorem frame_get_cell (env : LibreOfficeEnvironment) (p : Params) :
    stateFrame (get_cell env p) env := by
  unfold get_cell; repeat' split <;> (try simp [stateFrame])

theorem frame_set_range (env : LibreOfficeEnvironment) (p : Params) :
    stateFrame (set_range env p) env := by
  unfold set_range; repeat' split <;> (try simp [stateFrame])

theorem frame_get_range (env : LibreOfficeEnvironment) (p : Params) :
    stateFrame (get_range env p) env := by
  unfold get_range; repeat' split <;> (try simp [stateFrame])

theorem frame_set_formula (env : LibreOfficeEnvironment) (p : Params) :
    stateFrame (set_formula env p) env := by
  unfold set_formula; repeat' split <;> (try simp [stateFrame])

theorem frame_get_formula (env : LibreOfficeEnvironment) (p : Params) :
    stateFrame (get_formula env p) env := by
  unfold get_formula; repeat' split <;> (try simp [stateFrame])

theorem frame_add_sheet (env : LibreOfficeEnvironment) (p : Params) :
    stateFrame (add_sheet env p) env := by
  unfold add_sheet; repeat' split <;> (try simp [stateFrame])

theorem frame_delete_sheet (env : LibreOfficeEnvironment) (p : Params) :
    stateFrame (delete_sheet env p) env := by
  unfold delete_sheet; repeat' split <;> (try simp [stateFrame])

theorem frame_rename_sheet (env : LibreOfficeEnvironment) (p : Params) :
    stateFrame (rename_sheet env p) env := by
  unfold rename_sheet; repeat' split <;> (try simp [stateFrame])

theorem frame_format_cell (env : LibreOfficeEnvironment) (p : Params) :
    stateFrame (format_cell env p) env := by
  unfold format_cell; repeat' split <;> (try simp [stateFrame])

theorem frame_export_pdf (w : World) (env : LibreOfficeEnvironment) (p : Params) :
    stateFrame (export_pdf w env p) env := by
  unfold export_pdf; repeat' split <;> (try simp [stateFrame])

theorem frame_export_csv (w : World) (env : LibreOfficeEnvironment) (p : Params) :
    stateFrame (export_csv w env p) env := by
  unfold export_csv; repeat' split <;> (try simp [stateFrame])

theorem errOk_create_sheet (env : LibreOfficeEnvironment) :
    resultErrOk (create_sheet env) := by
  unfold create_sheet; repeat' split <;> (try simp [resultErrOk, errOk, mkFail])

theorem errOk_open_file (w : World) (env : LibreOfficeEnvironment) (p : Params) :
    resultErrOk (open_file w env p) := by
  unfold open_file; repeat' split <;> (try simp [resultErrOk, errOk, mkFail])

theorem errOk_save_file (w : World) (env : LibreOfficeEnvironment) (p : Params) :
    resultErrOk (save_file w env p) := by
  unfold save_file; repeat' split <;> (try simp [resultErrOk, errOk, mkFail])

theorem errOk_set_cell (env : LibreOfficeEnvironment) (p : Params) :
    resultErrOk (set_cell env p) := by
  unfold set_cell; repeat' split <;> (try simp [resultErrOk, errOk, mkFail])

theorem errOk_get_cell (env : LibreOfficeEnvironment) (p : Params) :
    resultErrOk (get_cell env p) := by
  unfold get_cell; repeat' split <;> (try simp [resultErrOk, errOk, mkFail])

theorem errOk_set_range (env : LibreOfficeEnvironment) (p : Params) :
    resultErrOk (set_range env p) := by
  unfold set_range; repeat' split <;> (try simp [resultErrOk, errOk, mkFail])

theorem errOk_get_range (env : LibreOfficeEnvironment) (p : Params) :
    resultErrOk (get_range env p) := by
  unfold get_range; repeat' split <;> (try simp [resultErrOk, errOk, mkFail])

theorem errOk_set_formula (env : LibreOfficeEnvironment) (p : Params) :
    resultErrOk (set_formula env p) := by
  unfold set_formula; repeat' split <;> (try simp [resultErrOk, errOk, mkFail])

theorem errOk_get_formula (env : LibreOfficeEnvironment) (p : Params) :
    resultErrOk (get_formula env p) := by
  unfold get_formula; repeat' split <;> (try simp [resultErrOk, errOk, mkFail])

theorem errOk_add_sheet (env : LibreOfficeEnvironment) (p : Params) :
    resultErrOk (add_sheet env p) := by
  unfold add_sheet; repeat' split <;> (try simp [resultErrOk, errOk, mkFail])

theorem errOk_delete_sheet (env : LibreOfficeEnvironment) (p : Params) :
    resultErrOk (delete_sheet env p) := by
  unfold delete_sheet; repeat' split <;> (try simp [resultErrOk, errOk, mkFail])

theorem errOk_rename_sheet (env : LibreOfficeEnvironment) (p : Params) :
    resultErrOk (rename_sheet env p) := by
  unfold rename_sheet; repeat' split <;> (try simp [resultErrOk, errOk, mkFail])

theorem errOk_format_cell (env : LibreOfficeEnvironment) (p : Params) :
    resultErrOk (format_cell env p) := by
  unfold format_cell; repeat' split <;> (try simp [resultErrOk, errOk, mkFail, formatOkObs])

theorem errOk_export_csv (w : World) (env : LibreOfficeEnvironment) (p : Params) :
    resultErrOk (export_csv w env p) := by
  unfold export_csv; repeat' split <;> (try simp [resultErrOk, errOk, mkFail])

/-- `_export_pdf` keeps the error-message discipline except on its
verified-missing-file path. -/
theorem errOk_export_pdf (w : World) (env : LibreOfficeEnvironment) (p : Params) :
    pdfLenient (export_pdf w env p) w := by
  unfold export_pdf
  repeat' split <;> (try simp_all [pdfLenient, errOk, mkFail])

/-- Case analysis over the dispatch chain of `_execute_command`. -/
theorem execute_command_cases (w : World) (env : LibreOfficeEnvironment)
    (a : LibreOfficeAction)
    (P : LibreOfficeObservation × LibreOfficeEnvironment → Prop)
    (knr : env.ready = false → P (notReadyObs, env))
    (k01 : env.ready = true → a.command = "create_sheet" → P (create_sheet env))
    (k02 : env.ready = true → a.command = "open_file" → P (open_file w env a.parameters))
    (k03 : env.ready = true → a.command = "save_file" → P (save_file w env a.parameters))
    (k04 : env.ready = true → a.command = "set_cell" → P (set_cell env a.parameters))
    (k05 : env.ready = true → a.command = "get_cell" → P (get_cell env a.parameters))
    (k06 : env.ready = true → a.command = "set_range" → P (set_range env a.parameters))
    (k07 : env.ready = true → a.command = "get_range" → P (get_range env a.parameters))
    (k08 : env.ready = true → a.command = "set_formula" → P (set_formula env a.parameters))
    (k09 : env.ready = true → a.command = "get_formula" → P (get_formula env a.parameters))
    (k10 : env.ready = true → a.command = "add_sheet" → P (add_sheet env a.parameters))
    (k11 : env.ready = true → a.command = "delete_sheet" → P (delete_sheet env a.parameters))
    (k12 : env.ready = true → a.command = "rename_sheet" → P (rename_sheet env a.parameters))
    (k13 : env.ready = true → a.command = "format_cell" → P (format_cell env a.parameters))
    (k14 : env.ready = true → a.command = "export_pdf" → P (export_pdf w env a.parameters))
    (k15 : env.ready = true → a.command = "export_csv" → P (export_csv w env a.parameters))
    (kun : env.ready = true → P (unknownObs a.command, env)) :
    P (execute_command w env a) := by
  by_cases hr : env.ready = true
  case neg =>
    rw [Bool.not_eq_true] at hr
    rw [show execute_command w env a = (notReadyObs, env) from by
      simp [execute_command, hr]]
    exact knr hr
  by_cases h1 : a.command = "create_sheet"
  · rw [show execute_command w env a = create_sheet env from by
      simp [execute_command, hr, h1]]
    exact k01 hr h1
  by_cases h2 : a.command = "open_file"
  · rw [show execute_command w env a = open_file w env a.parameters from by
      simp [execute_command, hr, h1, h2]]
    exact k02 hr h2
  by_cases h3 : a.command = "save_file"
  · rw [show execute_command w env a = save_file w env a.parameters from by
      simp [execute_command, hr, h1, h2, h3]]
    exact k03 hr h3
  by_cases h4 : a.command = "set_cell"
  · rw [show execute_command w env a = set_cell env a.parameters from by
      simp [execute_command, hr, h1, h2, h3, h4]]
    exact k04 hr h4
  by_cases h5 : a.command = "get_cell"
  · rw [show execute_command w env a = get_cell env a.parameters from by
      simp [execute_command, hr, h1, h2, h3, h4, h5]]
    exact k05 hr h5
  by_cases h6 : a.command = "set_range"
  · rw [show execute_command w env a = set_range env a.parameters from by
      simp [execute_command, hr, h1, h2, h3, h4, h5, h6]]
    exact k06 hr h6
  by_cases h7 : a.command = "get_range"
  · rw [show execute_command w env a = get_range env a.parameters from by
      simp [execute_command, hr, h1, h2, h3, h4, h5, h6, h7]]
    exact k07 hr h7
  by_cases h8 : a.command = "set_formula"
  · rw [show execute_command w env a = set_formula env a.parameters from by
      simp [execute_command, hr, h1, h2, h3, h4, h5, h6, h7, h8]]
    exact k08 hr h8
  by_cases h9 : a.command = "get_formula"
  · rw [show execute_command w env a = get_formula env a.parameters from by
      simp [execute_command, hr, h1, h2, h3, h4, h5, h6, h7, h8, h9]]
    exact k09 hr h9
  by_cases h10 : a.command = "add_sheet"
  · rw [show execute_command w env a = add_sheet env a.parameters from by
      simp [execute_command, hr, h1, h2, h3, h4, h5, h6, h7, h8, h9, h10]]
    exact k10 hr h10
  by_cases h11 : a.command = "delete_sheet"
  · rw [show execute_command w env a = delete_sheet env a.parameters from by
      simp [execute_command, hr, h1, h2, h3, h4, h5, h6, h7, h8, h9, h10, h11]]
    exact k11 hr h11
  by_cases h12 : a.command = "rename_sheet"
  · rw [show execute_command w env a = rename_sheet env a.parameters from by
      simp [execute_command, hr, h1, h2, h3, h4, h5, h6, h7, h8, h9, h10, h11, h12]]
    exact k12 hr h12
  by_cases h13 : a.command = "format_cell"
  · rw [show execute_command w env a = format_cell env a.parameters from by
      simp [execute_command, hr, h1, h2, h3, h4, h5, h6, h7, h8, h9, h10, h11, h12, h13]]
    exact k13 hr h13
  by_cases h14 : a.command = "export_pdf"
  · rw [show execute_command w env a = export_pdf w env a.parameters from by
      simp [execute_command, hr, h1, h2, h3, h4, h5, h6, h7, h8, h9, h10, h11, h12, h13, h14]]
    exact k14 hr h14
  by_cases h15 : a.command = "export_csv"
  · rw [show execute_command w env a = export_csv w env a.parameters from by
      simp [execute_command, hr, h1, h2, h3, h4, h5, h6, h7, h8, h9, h10, h11, h12, h13, h14, h15]]
    exact k15 hr h15
  rw [show execute_command w env a = (unknownObs a.command, env) from by
    simp [execute_command, hr, h1, h2, h3, h4, h5, h6, h7, h8, h9, h10, h11, h12, h13, h14, h15]]
  exact kun hr

/-- Dispatch never touches the episode identity or the step counter. -/
theorem execute_command_frame (w : World) (env : LibreOfficeEnvironment)
    (a : LibreOfficeAction) :
    stateFrame (execute_command w env a) env :=
  execute_command_cases w env a (fun r => stateFrame r env)
    (fun _ => ⟨rfl, rfl⟩)
    (fun _ _ => frame_create_sheet env)
    (fun _ _ => frame_open_file w env a.parameters)
    (fun _ _ => frame_save_file w env a.parameters)
    (fun _ _ => frame_set_cell env a.parameters)
    (fun _ _ => frame_get_cell env a.parameters)
    (fun _ _ => frame_set_range env a.parameters)
    (fun _ _ => frame_get_range env a.parameters)
    (fun _ _ => frame_set_formula env a.parameters)
    (fun _ _ => frame_get_formula env a.parameters)
    (fun _ _ => frame_add_sheet env a.parameters)
    (fun _ _ => frame_delete_sheet env a.parameters)
    (fun _ _ => frame_rename_sheet env a.parameters)
    (fun _ _ => frame_format_cell env a.parameters)
    (fun _ _ => frame_export_pdf w env a.parameters)
    (fun _ _ => frame_export_csv w env a.parameters)
    (fun _ => ⟨rfl, rfl⟩)

/-- Error-message discipline across dispatch, with the `_export_pdf`
exception tagged by its command string. -/
theorem execute_command_errOk (w : World) (env : LibreOfficeEnvironment)
    (a : LibreOfficeAction) :
    errOk (execute_command w env a).1 ∨
      (a.command = "export_pdf" ∧
       (execute_command w env a).1.success = false ∧
       (execute_command w env a).1.errorMessage = Option.none ∧
       w.pdfExistsAfter = false) := by
  refine execute_command_cases w env a
    (fun r => errOk r.1 ∨
      (a.command = "export_pdf" ∧ r.1.success = false ∧
       r.1.errorMessage = Option.none ∧ w.pdfExistsAfter = false))
    ?_ ?_ ?_ ?_ ?_ ?_ ?_ ?_ ?_ ?_ ?_ ?_ ?_ ?_ ?_ ?_ ?_
  · exact fun _ => Or.inl errOk_notReadyObs
  · exact fun _ _ => Or.inl (errOk_create_sheet env)
  · exact fun _ _ => Or.inl (errOk_open_file w env a.parameters)
  · exact fun _ _ => Or.inl (errOk_save_file w env a.parameters)
  · exact fun _ _ => Or.inl (errOk_set_cell env a.parameters)
  · exact fun _ _ => Or.inl (errOk_get_cell env a.parameters)
  · exact fun _ _ => Or.inl (errOk_set_range env a.parameters)
  · exact fun _ _ => Or.inl (errOk_get_range env a.parameters)
  · exact fun _ _ => Or.inl (errOk_set_formula env a.parameters)
  · exact fun _ _ => Or.inl (errOk_get_formula env a.parameters)
  · exact fun _ _ => Or.inl (errOk_add_sheet env a.parameters)
  · exact fun _ _ => Or.inl (errOk_delete_sheet env a.parameters)
  · exact fun _ _ => Or.inl (errOk_rename_sheet env a.parameters)
  · exact fun _ _ => Or.inl (errOk_format_cell env a.parameters)
  · intro _ hc
    rcases errOk_export_pdf w env a.parameters with h | ⟨hs, hm, hw⟩
    · exact Or.inl h
    · exact Or.inr ⟨hc, hs, hm, hw⟩
  · exact fun _ _ => Or.inl (errOk_export_csv w env a.parameters)
  · exact fun _ => Or.inl (errOk_unknownObs a.command)

/-! ### Claim theorems -/

/-- Claim C1: for every action whose command is not one of the fifteen
dispatched commands, stepping a ready environment returns a failure
observation whose error message contains the command name, and the
step counter advances by exactly one. -/
theorem step_unknown_command (w : World) (env : LibreOfficeEnvironment)
    (a : LibreOfficeAction) (hr : env.ready = true)
    (hc : a.command ∉ dispatchedCommands) :
    (step w env a).1.success = false ∧
    (step w env a).1.errorMessage =
      some ("Command '" ++ a.command ++ "' not supported") ∧
    (∃ pre post, ("Command '" ++ a.command ++ "' not supported").data =
      pre ++ a.command.data ++ post) ∧
    (step w env a).2.stepCount = env.stepCount + 1 := by
  simp only [dispatchedCommands, List.mem_cons, List.not_mem_nil, or_false,
    not_or] at hc
  obtain ⟨h1, h2, h3, h4, h5, h6, h7, h8, h9, h10, h11, h12, h13, h14, h15⟩ := hc
  refine ⟨?_, ?_, ⟨("Command '").data, ("' not supported").data, ?_⟩, ?_⟩ <;>
    simp [step, execute_command, unknownObs, hr, h1, h2, h3, h4, h5, h6, h7,
      h8, h9, h10, h11, h12, h13, h14, h15]

/-- Witness for C1 at the undispatched command `copy_range`. -/
theorem step_unknown_command_witness :
    demoEnv.ready = true ∧ "copy_range" ∉ dispatchedCommands ∧
    ((step {} demoEnv { command := "copy_range" }).1.success = false ∧
     (step {} demoEnv { command := "copy_range" }).1.errorMessage =
       some ("Command '" ++ "copy_range" ++ "' not supported") ∧
     (∃ pre post, ("Command '" ++ "copy_range" ++ "' not supported").data =
       pre ++ ("copy_range").data ++ post) ∧
     (step {} demoEnv { command := "copy_range" }).2.stepCount =
       demoEnv.stepCount + 1) :=
  ⟨rfl, by decide,
   step_unknown_command {} demoEnv { command := "copy_range" } rfl (by decide)⟩

/-- Claim C2: every step's observation carries metadata made of the
current step count, the command and the episode id; reward is 1 on
success and -1/10 on failure; done is always false.  The step counter
grows by exactly one and the episode id is untouched. -/
theorem step_metadata_reward_done (w : World) (env : LibreOfficeEnvironment)
    (a : LibreOfficeAction) :
    (step w env a).1.metadata =
      some { step := (step w env a).2.stepCount, command := a.command,
             episodeId := (step w env a).2.episodeId } ∧
    (step w env a).2.stepCount = env.stepCount + 1 ∧
    (step w env a).2.episodeId = env.episodeId ∧
    (step w env a).1.reward =
      some (if (step w env a).1.success then (1 : Rat) else -(1 / 10)) ∧
    (step w env a).1.done = false := by
  refine ⟨rfl, ?_, ?_, rfl, rfl⟩
  · exact (execute_command_frame w { env with stepCount := env.stepCount + 1 } a).1
  · exact (execute_command_frame w { env with stepCount := env.stepCount + 1 } a).2

/-- Claim C3: stepping a not-ready environment (fresh, or after a
failed reset of a fresh environment) fails closed with the
not-initialized messages and still advances the step counter. -/
theorem step_not_ready (w : World) (env : LibreOfficeEnvironment)
    (a : LibreOfficeAction) (h : env.ready = false) :
    (step w env a).1.success = false ∧
    (step w env a).1.result = "LibreOffice not initialized" ∧
    (step w env a).1.errorMessage = some "LibreOffice connection failed" ∧
    (step w env a).2.stepCount = env.stepCount + 1 := by
  refine ⟨?_, ?_, ?_, ?_⟩ <;> simp [step, execute_command, notReadyObs, h]

/-- Witness for C3 at the state left by a failed reset. -/
theorem step_not_ready_witness :
    envFailedReset.ready = false ∧
    ((step {} envFailedReset { command := "get_cell" }).1.success = false ∧
     (step {} envFailedReset { command := "get_cell" }).1.result =
       "LibreOffice not initialized" ∧
     (step {} envFailedReset { command := "get_cell" }).1.errorMessage =
       some "LibreOffice connection failed" ∧
     (step {} envFailedReset { command := "get_cell" }).2.stepCount =
       envFailedReset.stepCount + 1) :=
  ⟨rfl, step_not_ready {} envFailedReset { command := "get_cell" } rfl⟩

/-- Counterexample to claim C4 as stated: an `export_pdf` step whose
store call raises nothing but whose file is absent afterwards returns
`success = false` with no `error_message`. -/
theorem export_pdf_failure_without_error_message :
    (step wNoPdf demoEnv
      { command := "export_pdf",
        parameters := (show Params from
          [("file_path", PyVal.str "/out/report.pdf")]) }).1.success = false ∧
    (step wNoPdf demoEnv
      { command := "export_pdf",
        parameters := (show Params from
          [("file_path", PyVal.str "/out/report.pdf")]) }).1.errorMessage =
      Option.none :=
  ⟨rfl, rfl⟩

/-- Claim C4 (amended): an observation never carries an error message
on success, and every failure carries one — except `_export_pdf`'s
verified-missing-file path, where the failure has no message.  The
observations of reset and close obey the discipline without
exception. -/
theorem observation_error_message_discipline (w : World)
    (env : LibreOfficeEnvironment) (a : LibreOfficeAction) :
    (errOk (step w env a).1 ∨
      (a.command = "export_pdf" ∧ (step w env a).1.success = false ∧
       (step w env a).1.errorMessage = Option.none ∧
       w.pdfExistsAfter = false)) ∧
    errOk (reset w env).1 ∧
    errOk (close w env).obs := by
  refine ⟨?_, ?_, ?_⟩
  · have h := execute_command_errOk w { env with stepCount := env.stepCount + 1 } a
    exact h
  · unfold reset
    repeat' split <;> (try simp [errOk])
  · exact ⟨fun _ => rfl, fun hfalse => by simp [close] at hfalse⟩

/-- Claim C5 (code bug): with a goal path configured and every engine
call succeeding, `close` releases the document handle before it
attempts the goal save, so the save always fails on a `None` document
and nothing is persisted; the failure is only reported while resources
are still released and the close itself reports success. -/
theorem close_goal_save_fails_after_handle_release :
    (close {} envGoal).goalSave =
      some (mkFail ("Error saving file: " ++ noneAttrMsg "storeAsURL")
        (noneAttrMsg "storeAsURL")) ∧
    (close {} envGoal).obs.success = true ∧
    (close {} envGoal).env.ready = false ∧
    (close {} envGoal).env.document = Option.none :=
  ⟨rfl, rfl, rfl, rfl⟩

/-- Sheet resolution ignores the step-counter update done by `step`. -/
theorem get_sheet_stepCount (env : LibreOfficeEnvironment) (k : Nat)
    (doc : Document) (v : PyVal) :
    get_sheet { env with stepCount := k } doc v = get_sheet env doc v := by
  cases v <;> rfl

/-- The `_get_cell` handler on a resolvable request: success, and the
text-over-numeric data policy. -/
theorem get_cell_core (env : LibreOfficeEnvironment) (doc : Document)
    (p : Params) (cn : String) (pos : Nat × Nat) (sn : String)
    (hd : env.document = some doc)
    (hc : getParam p "cell" = PyVal.str cn) (hne : cn ≠ "")
    (hp : parseCellRef cn = some pos)
    (hs : get_sheet env doc (getParam p "sheet") = some sn) :
    (get_cell env p).1.success = true ∧
    (get_cell env p).1.data =
      some (if pyStrip (doc.readCell sn pos).text != "" then
              ObsData.str (doc.readCell sn pos).text
            else ObsData.num (doc.readCell sn pos).value) := by
  constructor <;> simp [get_cell, hd, hc, hp, hs, pyTruthy, hne]

/-- Claim C6: `get_cell` returns the cell's text whenever its trimmed
text is non-blank, otherwise its numeric value. -/
theorem get_cell_prefers_text (w : World) (env : LibreOfficeEnvironment)
    (doc : Document) (p : Params) (cn : String) (pos : Nat × Nat) (sn : String)
    (hr : env.ready = true) (hd : env.document = some doc)
    (hc : getParam p "cell" = PyVal.str cn) (hne : cn ≠ "")
    (hp : parseCellRef cn = some pos)
    (hs : get_sheet env doc (getParam p "sheet") = some sn) :
    (step w env { command := "get_cell", parameters := p }).1.success = true ∧
    (step w env { command := "get_cell", parameters := p }).1.data =
      some (if pyStrip (doc.readCell sn pos).text != "" then
              ObsData.str (doc.readCell sn pos).text
            else ObsData.num (doc.readCell sn pos).value) := by
  have hs1 : get_sheet { env with stepCount := env.stepCount + 1 } doc
      (getParam p "sheet") = some sn := by
    rw [get_sheet_stepCount]; exact hs
  have hcore := get_cell_core { env with stepCount := env.stepCount + 1 }
    doc p cn pos sn hd hc hne hp hs1
  have he : execute_command w { env with stepCount := env.stepCount + 1 }
      { command := "get_cell", parameters := p } =
      get_cell { env with stepCount := env.stepCount + 1 } p := by
    simp [execute_command, hr]
  constructor
  · show (execute_command w { env with stepCount := env.stepCount + 1 }
      { command := "get_cell", parameters := p }).1.success = true
    rw [he]; exact hcore.1
  · show (execute_command w { env with stepCount := env.stepCount + 1 }
      { command := "get_cell", parameters := p }).1.data =
      some (if pyStrip (doc.readCell sn pos).text != "" then
              ObsData.str (doc.readCell sn pos).text
            else ObsData.num (doc.readCell sn pos).value)
    rw [he]; exact hcore.2

/-- Parameters selecting cell A1. -/
def pA1 : Params := [("cell", PyVal.str "A1")]

/-- Parameters selecting cell B1. -/
def pB1 : Params := [("cell", PyVal.str "B1")]

/-- Witness for C6: in `demoDoc` cell A1 holds non-blank text and is
returned as text despite its numeric 7; cell B1 is blank with numeric
zero and is returned as the number zero. -/
theorem get_cell_prefers_text_witness :
    ((step {} demoEnv { command := "get_cell", parameters := pA1 }).1.success = true ∧
     (step {} demoEnv { command := "get_cell", parameters := pA1 }).1.data =
       some (if pyStrip (demoDoc.readCell "Sheet1" (0, 0)).text != "" then
               ObsData.str (demoDoc.readCell "Sheet1" (0, 0)).text
             else ObsData.num (demoDoc.readCell "Sheet1" (0, 0)).value)) ∧
    (step {} demoEnv { command := "get_cell", parameters := pA1 }).1.data =
      some (ObsData.str " hi ") ∧
    (step {} demoEnv { command := "get_cell", parameters := pB1 }).1.data =
      some (ObsData.num 0) :=
  ⟨get_cell_prefers_text {} demoEnv demoDoc pA1 "A1" (0, 0) "Sheet1"
     rfl rfl rfl (by decide) rfl rfl,
   ((get_cell_prefers_text {} demoEnv demoDoc pA1 "A1" (0, 0) "Sheet1"
     rfl rfl rfl (by decide) rfl rfl).2.trans (by rfl)),
   ((get_cell_prefers_text {} demoEnv demoDoc pB1 "B1" (1, 0) "Sheet1"
     rfl rfl rfl (by decide) rfl rfl).2.trans (by rfl))⟩

/-- Claim C7: `_get_sheet` returns a supplied sheet name exactly when a
sheet of that name exists, silently falls back to the current sheet on
a missing name, and returns the current sheet when no name is
supplied. -/
theorem get_sheet_policy (env : LibreOfficeEnvironment) (doc : Document)
    (n : String) :
    get_sheet env doc (PyVal.str n) =
      (if doc.hasSheet n then some n else env.currentSheet) ∧
    get_sheet env doc PyVal.none = env.currentSheet :=
  ⟨rfl, rfl⟩

/-- `hasSheet` checks membership of the name list. -/
theorem hasSheet_iff (d : Document) (n : String) :
    d.hasSheet n = true ↔ n ∈ d.sheetNames := by
  simp only [Document.hasSheet, Document.sheetNames, List.any_eq_true,
    beq_iff_eq, List.mem_map]

/-- Counterexample to claim C8 as stated: over a document whose sheets
are `Sheet1` and `Sheet3`, the auto-generated name is `Sheet3`, which
collides with an existing sheet, so the insert fails and nothing is
added. -/
theorem add_sheet_auto_name_collision :
    autoSheetName gapDoc ∈ gapDoc.sheetNames ∧
    (step {} gapEnv { command := "add_sheet" }).1.success = false ∧
    (step {} gapEnv { command := "add_sheet" }).2.document = some gapDoc := by
  refine ⟨?_, rfl, rfl⟩
  decide

/-- The `_add_sheet` handler with no `name` parameter: the inserted
name is `autoSheetName`, appended when it is free and failing when it
collides. -/
theorem add_sheet_core (env : LibreOfficeEnvironment) (doc : Document)
    (p : Params) (hd : env.document = some doc)
    (hn : List.lookup "name" (show List (String × PyVal) from p) = Option.none) :
    (doc.hasSheet (autoSheetName doc) = false →
      (add_sheet env p).1.success = true ∧
      (add_sheet env p).2.document =
        some { sheets := doc.sheets ++ [{ name := autoSheetName doc }] }) ∧
    (doc.hasSheet (autoSheetName doc) = true →
      (add_sheet env p).1.success = false ∧
      (add_sheet env p).2.document = some doc) := by
  have hparam : getParamD p "name" (PyVal.str (autoSheetName doc)) =
      PyVal.str (autoSheetName doc) := by
    simp [getParamD, hn]
  constructor
  · intro h
    constructor <;> simp [add_sheet, hd, hparam, h]
  · intro h
    constructor <;> simp [add_sheet, hd, hparam, h, mkFail]

/-- Claim C8 (amended): `add_sheet` with no name generates the name
`Sheet` followed by the current sheet count plus one; the new sheet is
added and the name is unique exactly when no existing sheet already
bears that name — otherwise the insert fails and the document is
unchanged. -/
theorem add_sheet_auto_name_unique_iff (w : World)
    (env : LibreOfficeEnvironment) (doc : Document) (p : Params)
    (hr : env.ready = true) (hd : env.document = some doc)
    (hn : List.lookup "name" (show List (String × PyVal) from p) = Option.none) :
    (autoSheetName doc ∉ doc.sheetNames →
      (step w env { command := "add_sheet", parameters := p }).1.success = true ∧
      (step w env { command := "add_sheet", parameters := p }).2.document =
        some { sheets := doc.sheets ++ [{ name := autoSheetName doc }] }) ∧
    (autoSheetName doc ∈ doc.sheetNames →
      (step w env { command := "add_sheet", parameters := p }).1.success = false ∧
      (step w env { command := "add_sheet", parameters := p }).2.document =
        some doc) := by
  have hcore := add_sheet_core { env with stepCount := env.stepCount + 1 }
    doc p hd hn
  have he : execute_command w { env with stepCount := env.stepCount + 1 }
      { command := "add_sheet", parameters := p } =
      add_sheet { env with stepCount := env.stepCount + 1 } p := by
    simp [execute_command, hr]
  constructor
  · intro hmem
    have h : doc.hasSheet (autoSheetName doc) = false := by
      rcases Bool.eq_false_or_eq_true (doc.hasSheet (autoSheetName doc)) with hb | hb
      · exact absurd ((hasSheet_iff doc (autoSheetName doc)).1 hb) hmem
      · exact hb
    constructor
    · show (execute_command w { env with stepCount := env.stepCount + 1 }
        { command := "add_sheet", parameters := p }).1.success = true
      rw [he]; exact (hcore.1 h).1
    · show (execute_command w { env with stepCount := env.stepCount + 1 }
        { command := "add_sheet", parameters := p }).2.document =
        some { sheets := doc.sheets ++ [{ name := autoSheetName doc }] }
      rw [he]; exact (hcore.1 h).2
  · intro hmem
    have h : doc.hasSheet (autoSheetName doc) = true :=
      (hasSheet_iff doc (autoSheetName doc)).2 hmem
    constructor
    · show (execute_command w { env with stepCount := env.stepCount + 1 }
        { command := "add_sheet", parameters := p }).1.success = false
      rw [he]; exact (hcore.2 h).1
    · show (execute_command w { env with stepCount := env.stepCount + 1 }
        { command := "add_sheet", parameters := p }).2.document = some doc
      rw [he]; exact (hcore.2 h).2

/-- Witness for C8 (amended) over the single-sheet `demoDoc`, whose
auto name `Sheet2` is free. -/
theorem add_sheet_auto_name_unique_iff_witness :
    autoSheetName demoDoc ∉ demoDoc.sheetNames ∧
    ((step {} demoEnv { command := "add_sheet" }).1.success = true ∧
     (step {} demoEnv { command := "add_sheet" }).2.document =
       some { sheets := demoDoc.sheets ++ [{ name := autoSheetName demoDoc }] }) :=
  ⟨by decide,
   (add_sheet_auto_name_unique_iff {} demoEnv demoDoc (show Params from [])
     rfl rfl rfl).1 (by decide)⟩

/-- The `_set_cell` handler with a valid cell and a missing `value`:
it succeeds and writes the string `"None"` through the text-set
capability. -/
theorem set_cell_core (env : LibreOfficeEnvironment) (doc : Document)
    (p : Params) (cn : String) (pos : Nat × Nat) (sn : String)
    (hd : env.document = some doc)
    (hc : getParam p "cell" = PyVal.str cn) (hne : cn ≠ "")
    (hp : parseCellRef cn = some pos)
    (hs : get_sheet env doc (getParam p "sheet") = some sn)
    (hv : getParam p "value" = PyVal.none) :
    (set_cell env p).1.success = true ∧
    (set_cell env p).2.document = some (doc.setCellString sn pos "None") := by
  constructor <;>
    simp [set_cell, hd, hc, hp, hs, hv, pyTruthy, hne, pyIsNumber, pyStr, pyRepr]

/-- Claim C9: `set_cell` with a valid cell reference and no `value`
parameter succeeds and writes the literal string `"None"` to the cell
through the text-set capability. -/
theorem set_cell_missing_value_writes_None (w : World)
    (env : LibreOfficeEnvironment) (doc : Document) (p : Params)
    (cn : String) (pos : Nat × Nat) (sn : String)
    (hr : env.ready = true) (hd : env.document = some doc)
    (hc : getParam p "cell" = PyVal.str cn) (hne : cn ≠ "")
    (hp : parseCellRef cn = some pos)
    (hs : get_sheet env doc (getParam p "sheet") = some sn)
    (hv : getParam p "value" = PyVal.none) :
    (step w env { command := "set_cell", parameters := p }).1.success = true ∧
    (step w env { command := "set_cell", parameters := p }).2.document =
      some (doc.setCellString sn pos "None") := by
  have hs1 : get_sheet { env with stepCount := env.stepCount + 1 } doc
      (getParam p "sheet") = some sn := by
    rw [get_sheet_stepCount]; exact hs
  have hcore := set_cell_core { env with stepCount := env.stepCount + 1 }
    doc p cn pos sn hd hc hne hp hs1 hv
  have he : execute_command w { env with stepCount := env.stepCount + 1 }
      { command := "set_cell", parameters := p } =
      set_cell { env with stepCount := env.stepCount + 1 } p := by
    simp [execute_command, hr]
  constructor
  · show (execute_command w { env with stepCount := env.stepCount + 1 }
      { command := "set_cell", parameters := p }).1.success = true
    rw [he]; exact hcore.1
  · show (execute_command w { env with stepCount := env.stepCount + 1 }
      { command := "set_cell", parameters := p }).2.document =
      some (doc.setCellString sn pos "None")
    rw [he]; exact hcore.2

/-- Parameters naming only cell C2, with no value. -/
def pC2 : Params := [("cell", PyVal.str "C2")]

/-- Witness for C9: setting C2 with no value succeeds and stores the
text `"None"` there. -/
theorem set_cell_missing_value_writes_None_witness :
    getParam pC2 "value" = PyVal.none ∧
    ((step {} demoEnv { command := "set_cell", parameters := pC2 }).1.success = true ∧
     (step {} demoEnv { command := "set_cell", parameters := pC2 }).2.document =
       some (demoDoc.setCellString "Sheet1" (2, 1) "None")) :=
  ⟨rfl,
   set_cell_missing_value_writes_None {} demoEnv demoDoc pC2 "C2" (2, 1)
     "Sheet1" rfl rfl rfl (by decide) rfl rfl rfl⟩

/-- The `_add_sheet` handler never moves the stored current-sheet
reference, while a successful observation reports the appended sheet's
name as `current_sheet`. -/
theorem add_sheet_current_core (env : LibreOfficeEnvironment)
    (doc : Document) (p : Params) (hd : env.document = some doc) :
    (add_sheet env p).2.currentSheet = env.currentSheet ∧
    ((add_sheet env p).1.success = true →
      ∃ s : Sheet,
        (add_sheet env p).2.document = some { sheets := doc.sheets ++ [s] } ∧
        (add_sheet env p).1.currentSheet = some s.name) := by
  constructor
  · unfold add_sheet; repeat' split <;> (try simp)
  · unfold add_sheet
    simp only [hd]
    repeat' split
    all_goals intro hsucc
    all_goals first
      | exact ⟨_, rfl, rfl⟩
      | simp [mkFail] at hsucc

/-- Claim C10: a successful `add_sheet` leaves the environment's
current-sheet reference unchanged even though the observation reports
the new sheet's name as the current sheet. -/
theorem add_sheet_keeps_current_sheet (w : World)
    (env : LibreOfficeEnvironment) (doc : Document) (p : Params)
    (hr : env.ready = true) (hd : env.document = some doc) :
    (step w env { command := "add_sheet", parameters := p }).2.currentSheet =
      env.currentSheet ∧
    ((step w env { command := "add_sheet", parameters := p }).1.success = true →
      ∃ s : Sheet,
        (step w env { command := "add_sheet", parameters := p }).2.document =
          some { sheets := doc.sheets ++ [s] } ∧
        (step w env { command := "add_sheet", parameters := p }).1.currentSheet =
          some s.name) := by
  have hcore := add_sheet_current_core { env with stepCount := env.stepCount + 1 }
    doc p hd
  have he : execute_command w { env with stepCount := env.stepCount + 1 }
      { command := "add_sheet", parameters := p } =
      add_sheet { env with stepCount := env.stepCount + 1 } p := by
    simp [execute_command, hr]
  constructor
  · show (execute_command w { env with stepCount := env.stepCount + 1 }
      { command := "add_sheet", parameters := p }).2.currentSheet =
      env.currentSheet
    rw [he]; exact hcore.1
  · intro hsucc
    have hsucc1 : (execute_command w { env with stepCount := env.stepCount + 1 }
        { command := "add_sheet", parameters := p }).1.success = true := hsucc
    rw [he] at hsucc1
    obtain ⟨s, hdoc, hcur⟩ := hcore.2 hsucc1
    refine ⟨s, ?_, ?_⟩
    · show (execute_command w { env with stepCount := env.stepCount + 1 }
        { command := "add_sheet", parameters := p }).2.document =
        some { sheets := doc.sheets ++ [s] }
      rw [he]; exact hdoc
    · show (execute_command w { env with stepCount := env.stepCount + 1 }
        { command := "add_sheet", parameters := p }).1.currentSheet =
        some s.name
      rw [he]; exact hcur

/-- Witness for C10 on `demoEnv`: the added sheet is reported as
current in the observation while the stored reference stays on
`Sheet1`. -/
theorem add_sheet_keeps_current_sheet_witness :
    demoEnv.ready = true ∧
    ((step {} demoEnv { command := "add_sheet" }).2.currentSheet =
       demoEnv.currentSheet ∧
     ((step {} demoEnv { command := "add_sheet" }).1.success = true →
       ∃ s : Sheet,
         (step {} demoEnv { command := "add_sheet" }).2.document =
           some { sheets := demoDoc.sheets ++ [s] } ∧
         (step {} demoEnv { command := "add_sheet" }).1.currentSheet =
           some s.name)) :=
  ⟨rfl, add_sheet_keeps_current_sheet {} demoEnv demoDoc
    (show Params from []) rfl rfl⟩
